import Mathlib

/-!
# Verification of the ai-evaluator-extension core against its specification

This development shallowly embeds the parts of the Python code base that the
frozen claims are about, and proves (or refutes) each claim over the
embedding:

* `src/src/core/protocol/sse_parser.py` — the SSE parser (`parse_event`,
  `parse_mcp_result`);
* `src/server/src/api/llm/providers/anthropic_provider.py` — the vendor-B
  payload normalization (`prepare_request`);
* `src/src/core/external_mcp/external_mcp_client.py` — the MCP client
  (`call_tool`, `initialize_session`);
* `src/server/src/plugins/calculator_plugin.py` — the safe expression
  evaluator and the calculator plugin;
* `src/server/src/api/llm/proxy/evaluation.py` — the score extractors;
* `src/src/core/routing/semantic_router.py` — multi-step plan execution;
* `src/server/src/api/llm/proxy/router.py` — the evaluation orchestrator.

JSON decoding (Python `json.loads`) and the LLM/HTTP world are abstracted as
parameters; all repository logic is translated line by line from the source.
-/

set_option autoImplicit false

namespace AIEval

/-! ## A minimal JSON value universe

Stands for the Python objects decoded by `json.loads`; the decoder itself is
kept abstract (a parameter `dec : String → Option Json`), `none` standing for
a `json.JSONDecodeError`. -/

inductive Json where
  | null : Json
  | bool : Bool → Json
  | num : Int → Json
  | str : String → Json
  | arr : List Json → Json
  | obj : List (String × Json) → Json

namespace Json

/-- Python `d.get(key)` / `key in d` on a decoded JSON object. -/
def lookup (j : Json) (key : String) : Option Json :=
  match j with
  | .obj fields => fields.lookup key
  | _ => none

/-- Python `"key" in data` (only ever used on decoded objects). -/
def hasKey (j : Json) (key : String) : Bool :=
  (j.lookup key).isSome

end Json

/-! ## Python string primitives

Models of the Python `str` methods the embedded code uses, implemented over
character lists so that they evaluate inside the kernel (Lean's built-in
`String.trim`, `splitOn`, `replace`, `startsWith`, `toLower`, `toUpper` do
not reduce definitionally).  Case mapping is ASCII, which covers every text
and template name the claims touch. -/

namespace Py

/-- Tests whether `needle` occurs at the head of `hay`
(Python `hay.startswith(needle)`). -/
def leadsWith : List Char → List Char → Bool
  | [], _ => true
  | _ :: _, [] => false
  | a :: as, b :: bs => a == b && leadsWith as bs

/-- Python `needle in hay`. -/
def containsPy (hay needle : List Char) : Bool :=
  match hay with
  | [] => needle.isEmpty
  | _ :: rest => leadsWith needle hay || containsPy rest needle

/-- Python `s.lower()` on a character list (ASCII). -/
def lowerL (s : List Char) : List Char := s.map Char.toLower

/-- Python `s.upper()` (ASCII). -/
def upperPy (s : String) : String := String.mk (s.toList.map Char.toUpper)

/-- Python `s.lower()` (ASCII). -/
def lowerPy (s : String) : String := String.mk (s.toList.map Char.toLower)

/-- The whitespace stripped by Python `str.strip()` (ASCII part). -/
def stripWs (c : Char) : Bool :=
  c = ' ' || c = '\t' || c = '\n' || c = '\r' || c = '\x0b' || c = '\x0c'

/-- Python `s.strip()`. -/
def pyStrip (s : List Char) : List Char :=
  ((s.dropWhile stripWs).reverse.dropWhile stripWs).reverse

/-- Python `s.split('\n')`. -/
def splitNl : List Char → List (List Char)
  | [] => [[]]
  | c :: rest =>
    if c = '\n' then [] :: splitNl rest
    else
      match splitNl rest with
      | p :: ps => (c :: p) :: ps
      | [] => [[c]]

/-- Python `'\n'.join(xs)`. -/
def joinNl : List String → String
  | [] => ""
  | [x] => x
  | x :: y :: xs => x ++ "\n" ++ joinNl (y :: xs)

/-- Python `s.replace('\r\n', '\n')`. -/
def replaceCrLf : List Char → List Char
  | [] => []
  | '\r' :: '\n' :: rest => '\n' :: replaceCrLf rest
  | c :: rest => c :: replaceCrLf rest

end Py

/-! ## SSE parser (`src/src/core/protocol/sse_parser.py`)

`SSEParser.parse_event` splits the text into lines (tolerating `\r\n`),
and folds over them: every `event: ` line overwrites the event name, every
`data: ` line whose stripped payload is non-empty overwrites the data with
its JSON decoding (wrapping the raw line as `{"raw": line}` when decoding
fails).  An empty input raises `SSEParseError`. -/

namespace SSEParser

/-- Embeds `data = json.loads(data_line)` with the `{"raw": data_line}` fallback of
`parse_event` (lines 50–59 of `sse_parser.py`). -/
def decodeOrRaw (dec : String → Option Json) (dataLine : String) : Json :=
  match dec dataLine with
  | some j => j
  | none => Json.obj [("raw", Json.str dataLine)]

/-- The line list of `parse_event`: `text.replace('\r\n', '\n').split('\n')`. -/
def linesOf (text : String) : List (List Char) :=
  Py.splitNl (Py.replaceCrLf text.toList)

/-- One step of the `for line in lines` loop of `parse_event`, acting on the
`(event_type, data)` pair: `line.startswith("event: ")` /
`line.startswith("data: ")` with the prefix dropped and the payload
stripped. -/
def parseEventStep (dec : String → Option Json)
    (acc : Option String × Option Json) (line : List Char) :
    Option String × Option Json :=
  if Py.leadsWith "event: ".toList line then
    (some (String.mk (Py.pyStrip (line.drop 7))), acc.2)
  else if Py.leadsWith "data: ".toList line then
    let dataLine := String.mk (Py.pyStrip (line.drop 6))
    if dataLine ≠ "" then (acc.1, some (decodeOrRaw dec dataLine)) else acc
  else acc

/-- Embeds `SSEParser.parse_event`.  `Except.error` models the raised
`SSEParseError("Empty SSE text")`. -/
def parse_event (dec : String → Option Json) (text : String) :
    Except String (Option String × Option Json) :=
  if text = "" then .error "Empty SSE text"
  else .ok ((linesOf text).foldl (parseEventStep dec) (none, none))

/-- Embeds `SSEParser.extract_mcp_response`: re-raises on empty text, raises
`SSEParseError("No data found in SSE response")` when the fold produced no
data, and otherwise returns the data (the event-type check only logs). -/
def extract_mcp_response (dec : String → Option Json) (text : String) :
    Except String Json :=
  match parse_event dec text with
  | .error e => .error e
  | .ok (_, none) => .error "No data found in SSE response"
  | .ok (_, some data) => .ok data

/-- The `(success, result_or_error, error_message)` triple of
`SSEParser.parse_mcp_result`.  `result_or_error` is `none` exactly where the
Python code returns `None`. -/
def parse_mcp_result (dec : String → Option Json) (text : String) :
    Bool × Option Json × Option String :=
  match extract_mcp_response dec text with
  | .ok data =>
    match data.lookup "result" with
    | some r => (true, some r, none)
    | none =>
      match data.lookup "error" with
      | some err =>
        let msg :=
          match err with
          | .obj _ =>
            match err.lookup "message" with
            | some (.str m) => m
            | _ => "Unknown error"
          | _ => "Unknown error"
        (false, some err, some msg)
      | none => (false, none, some "Invalid MCP response format")
  | .error e => (false, none, some e)

end SSEParser

/-! ## Vendor-B (Anthropic) provider adapter
(`src/server/src/api/llm/providers/anthropic_provider.py`)

`F` stands for the Python `float` type of `temperature` / `top_p`; its values
are passed through verbatim and never inspected, so it is kept abstract. -/

/-- Embeds `Message` of `providers/base.py`. -/
structure Message where
  role : String
  content : String
  deriving DecidableEq, Repr

/-- Embeds `ProviderRequest` of `providers/base.py` (the `api_key` field is omitted:
it only feeds header construction, which no claim concerns). -/
structure ProviderRequest (F : Type) where
  model : String
  messages : List Message
  max_tokens : Option Int
  temperature : Option F
  top_p : Option F

/-- The payload dict built by `AnthropicProvider.prepare_request`.
`system = none` models the key being absent from the dict. -/
structure AnthropicPayload (F : Type) where
  model : String
  max_tokens : Option Int
  system : Option String
  messages : List Message
  temperature : Option F
  top_p : Option F

/-- Embeds `m.role.lower() == "system"`, the (case-insensitive) system-message test
of `prepare_request` lines 58–59. -/
def isSystemMsg (m : Message) : Bool :=
  Py.lowerPy m.role == "system"

/-- Embeds `AnthropicProvider.prepare_request` (lines 37–73): collect the contents
of all system-role messages, join them with newlines into a top-level
`system` entry (omitted when there are none), and keep only the non-system
messages in `messages`. -/
def prepare_request {F : Type} (request : ProviderRequest F) :
    AnthropicPayload F :=
  let system_parts :=
    (request.messages.filter (fun m => isSystemMsg m)).map (fun m => m.content)
  let user_messages := request.messages.filter (fun m => !(isSystemMsg m))
  { model := request.model
    max_tokens := request.max_tokens
    system :=
      if system_parts.isEmpty then none
      else some (Py.joinNl system_parts)
    messages := user_messages
    temperature := request.temperature
    top_p := request.top_p }

/-! ## A small backtracking regex engine

`extract_score` and `extract_multi_axis_scores`
(`src/server/src/api/llm/proxy/evaluation.py`) locate scores with
`re.search` over a fixed family of patterns.  Every pattern in that family
is a sequence of: literal text, a greedy or lazy star of a one-character
class, a lazy bounded repetition, the single capture group `([1-5])`, an
optional two-literal alternation, a word boundary, or `(?:<class>|$)`.  The
engine below implements Python's leftmost search with ordered backtracking
for exactly that shape.  Axis names and keywords are interpolated into the
patterns as literal text, which matches Python's behaviour for every name
free of regex metacharacters (true of all shipped templates). -/

namespace Rex

/-- Python `\s` (the ASCII whitespace relevant to the analysed texts). -/
def wsC (c : Char) : Bool :=
  c = ' ' || c = '\t' || c = '\n' || c = '\r' || c = '\x0b' || c = '\x0c'

/-- Python `[^0-9]`. -/
def notDigitC (c : Char) : Bool := !c.isDigit

/-- Python `.` (DOTALL is never set on the extractor's searches). -/
def dotC (c : Char) : Bool := c ≠ '\n'

/-- Python `[\s\S]`. -/
def anyC (_ : Char) : Bool := true

/-- Python `[^*]`. -/
def notStarC (c : Char) : Bool := c ≠ '*'

/-- Python `[^#\*]`. -/
def notHashStarC (c : Char) : Bool := c ≠ '#' && c ≠ '*'

/-- Python `\w` (ASCII part; the analysed texts are ASCII). -/
def isWordChar (c : Char) : Bool := c.isAlphanum || c = '_'

/-- One element of a pattern. -/
inductive Pat where
  | lit : List Char → Pat
  | starG : (Char → Bool) → Pat
  | starL : (Char → Bool) → Pat
  | repL : Nat → (Char → Bool) → Pat
  | grp : Pat
  | optAlt : List Char → List Char → Pat
  | wb : Pat
  | clsEnd : (Char → Bool) → Pat

/-- Character comparison, honouring a pattern-wide `(?i)` flag. -/
def chEq (ci : Bool) (a b : Char) : Bool :=
  if ci then a.toLower == b.toLower else a == b

/-- Consume a literal; on success return the last consumed character (for
word boundaries) and the remaining text. -/
def litMatch (ci : Bool) : List Char → Option Char → List Char →
    Option (Option Char × List Char)
  | [], prev, s => some (prev, s)
  | _ :: _, _, [] => none
  | p :: ps, prev, c :: s =>
    if chEq ci p c then litMatch ci ps (some c) s else (fun _ => none) prev

/-- Length of the maximal run of class characters at the head of the text. -/
def runLen (q : Char → Bool) : List Char → Nat
  | [] => 0
  | c :: s => if q c then runLen q s + 1 else 0

/-- The character preceding the position reached after consuming `j`
characters of `s` (used for word boundaries). -/
def prevAfter (prev : Option Char) (s : List Char) : Nat → Option Char
  | 0 => prev
  | j + 1 =>
    match s.get? j with
    | some c => some c
    | none => prev

/-- Python `\b` at the position between `prev` and the head of `s`. -/
def wordBoundary (prev : Option Char) (s : List Char) : Bool :=
  let a := match prev with | some c => isWordChar c | none => false
  let b := match s with | c :: _ => isWordChar c | [] => false
  a != b

/-- Python `$` (no MULTILINE): end of text, or just before a final newline. -/
def atDollar (s : List Char) : Bool := s = [] || s = ['\n']

/-- First success over a list of candidate consumption lengths (the
backtracking order of a star). -/
def firstSomeN (f : Nat → Option (Option Char)) : List Nat → Option (Option Char)
  | [] => none
  | j :: js =>
    match f j with
    | some r => some r
    | none => firstSomeN f js

/-- Match a pattern element list against a prefix of `s`, with Python's
backtracking order; returns the content of the capture group on success.
`fuel` is consumed one unit per pattern element, so `pats.length` is always
enough; the `0`/cons case is unreachable under that discipline. -/
def matchElemsF (ci : Bool) : Nat → List Pat → Option Char → List Char →
    Option Char → Option (Option Char)
  | _, [], _, _, cap => some cap
  | 0, _ :: _, _, _, _ => none
  | f + 1, p :: ps, prev, s, cap =>
    match p with
    | .lit cs =>
      match litMatch ci cs prev s with
      | some (prev2, s2) => matchElemsF ci f ps prev2 s2 cap
      | none => none
    | .grp =>
      match s with
      | c :: s2 =>
        if '1' ≤ c && c ≤ '5' then matchElemsF ci f ps (some c) s2 (some c)
        else none
      | [] => none
    | .wb =>
      if wordBoundary prev s then matchElemsF ci f ps prev s cap else none
    | .clsEnd q =>
      let viaClass :=
        match s with
        | c :: s2 => if q c then matchElemsF ci f ps (some c) s2 cap else none
        | [] => none
      match viaClass with
      | some r => some r
      | none => if atDollar s then matchElemsF ci f ps prev s cap else none
    | .starG q =>
      firstSomeN
        (fun j => matchElemsF ci f ps (prevAfter prev s j) (s.drop j) cap)
        ((List.range (runLen q s + 1)).reverse)
    | .starL q =>
      firstSomeN
        (fun j => matchElemsF ci f ps (prevAfter prev s j) (s.drop j) cap)
        (List.range (runLen q s + 1))
    | .repL n q =>
      firstSomeN
        (fun j => matchElemsF ci f ps (prevAfter prev s j) (s.drop j) cap)
        (List.range (min n (runLen q s) + 1))
    | .optAlt a b =>
      let tryA :=
        match litMatch ci a prev s with
        | some (prev2, s2) => matchElemsF ci f ps prev2 s2 cap
        | none => none
      match tryA with
      | some r => some r
      | none =>
        let tryB :=
          match litMatch ci b prev s with
          | some (prev2, s2) => matchElemsF ci f ps prev2 s2 cap
          | none => none
        match tryB with
        | some r => some r
        | none => matchElemsF ci f ps prev s cap

/-- Try the pattern at each start position, left to right (`re.search`). -/
def searchFrom (ci : Bool) (pats : List Pat) : Option Char → List Char →
    Option Char
  | prev, s =>
    match matchElemsF ci pats.length pats prev s none with
    | some cap => cap
    | none =>
      match s with
      | [] => none
      | c :: s2 => searchFrom ci pats (some c) s2

/-- Embeds `re.search(pattern, text)`, returning the captured `([1-5])` character
of the first match (all extractor patterns have exactly one group). -/
def reSearch (ci : Bool) (pats : List Pat) (text : List Char) : Option Char :=
  searchFrom ci pats none text

end Rex

/-! ## Score extraction (`src/server/src/api/llm/proxy/evaluation.py`) -/

open Rex in
/-- The exact-keyword pattern `f"{ranking_keyword}[^0-9]*([1-5])"` used by
`extract_score` (line 114) and by the first stage of
`extract_multi_axis_scores` (line 149). -/
def keywordPat (kw : String) : List Rex.Pat :=
  [.lit kw.toList, .starG Rex.notDigitC, .grp]

/-- Embeds `int(match.group(1))`. -/
def digitScore (c : Char) : Nat := c.toNat - 48

open Rex in
/-- The `patterns` list of `extract_multi_axis_scores` (lines 164–203), in
order, each with its `(?i)` flag. -/
def fallbackPats (axis kw : String) : List (Bool × List Rex.Pat) :=
  [ (false, [.lit kw.toList, .starG wsC, .lit ['='], .starG wsC, .grp]),
    (false, [.lit (kw ++ ":").toList, .starG wsC, .grp]),
    (false, [.lit kw.toList, .starG wsC, .lit ['-'], .starG wsC, .grp]),
    (false, [.lit kw.toList, .starL dotC, .grp, .lit "/5".toList]),
    (false, [.lit (Py.upperPy axis ++ "_RATING").toList, .starG wsC, .lit ['='],
             .starG wsC, .grp]),
    (false, [.lit (Py.upperPy axis ++ "_RATING:").toList, .starG wsC, .grp]),
    (false, [.lit (axis ++ "_RATING").toList, .starG wsC, .lit ['='],
             .starG wsC, .grp]),
    (false, [.lit (axis ++ "_RATING:").toList, .starG wsC, .grp]),
    (false, [.lit (Py.upperPy axis).toList, .starG wsC, .lit ['='], .starG wsC, .grp]),
    (false, [.lit (Py.upperPy axis ++ ":").toList, .starG wsC, .grp]),
    (false, [.lit ("FINAL_RANKING for " ++ axis).toList, .starG wsC, .lit ['='],
             .starG wsC, .grp]),
    (false, [.lit axis.toList, .starG wsC, .lit ['='], .starG wsC, .grp]),
    (false, [.lit (axis ++ ":").toList, .starG wsC, .grp]),
    (false, [.lit (axis ++ " Rating").toList, .starG wsC, .lit ['='],
             .starG wsC, .grp]),
    (false, [.lit (axis ++ " Rating:").toList, .starG wsC, .grp]),
    (false, [.lit axis.toList, .starL dotC, .grp, .starG wsC,
             .optAlt "/5".toList "out of 5".toList]),
    (true, [.lit axis.toList, .starL dotC, .grp]),
    (true, [.wb, .lit axis.toList, .wb, .starL dotC, .grp, .wb]),
    (true, [.lit ("score for " ++ axis).toList, .starL dotC, .grp]) ]

open Rex in
/-- The `section_patterns` list of `extract_multi_axis_scores`
(lines 219–239), in order (all carry `(?i)`). -/
def sectionPats (axis : String) : List (Bool × List Rex.Pat) :=
  [ (true, [.lit "##".toList, .starG wsC, .lit axis.toList, .starL anyC, .grp,
            .clsEnd notDigitC]),
    (true, [.lit "###".toList, .starG wsC, .lit axis.toList, .starL anyC, .grp,
            .clsEnd notDigitC]),
    (true, [.lit "**".toList, .lit axis.toList, .lit "**".toList, .starL anyC,
            .grp, .clsEnd notDigitC]),
    (true, [.lit "**".toList, .lit axis.toList, .lit ":".toList,
            .starG notStarC, .lit "**".toList, .starL anyC, .grp,
            .clsEnd notDigitC]),
    (true, [.lit axis.toList, .starG wsC, .lit "assessment".toList,
            .starL anyC, .grp, .clsEnd notDigitC]),
    (true, [.lit axis.toList, .starG wsC, .lit "evaluation".toList,
            .starL anyC, .grp, .clsEnd notDigitC]),
    (true, [.lit axis.toList, .starL notHashStarC, .wb, .grp, .wb]),
    (true, [.wb, .lit axis.toList, .wb, .repL 500 anyC, .wb,
            .lit "score".toList, .wb, .repL 50 anyC, .grp]),
    (true, [.wb, .lit axis.toList, .wb, .repL 500 anyC, .wb,
            .lit "rating".toList, .wb, .repL 50 anyC, .grp]),
    (true, [.wb, .lit axis.toList, .wb, .repL 500 anyC, .wb, .grp,
            .lit "/5".toList, .wb]) ]

/-- Embeds `re.split(r'\n\n+', text)`: `pending` counts the newlines seen since the
last non-newline character. -/
def splitParasAux : List Char → List Char → Nat → List (List Char)
  | [], cur, pending =>
    if pending = 1 then [('\n' :: cur).reverse]
    else if 2 ≤ pending then [cur.reverse, []]
    else [cur.reverse]
  | c :: rest, cur, pending =>
    if c = '\n' then splitParasAux rest cur (pending + 1)
    else if pending = 1 then splitParasAux rest (c :: '\n' :: cur) 0
    else if 2 ≤ pending then cur.reverse :: splitParasAux rest [c] 0
    else splitParasAux rest (c :: cur) 0

/-- Embeds `re.split(r'\n\n+', text)` (line 253 of `evaluation.py`). -/
def splitParas (s : List Char) : List (List Char) := splitParasAux s [] 0

/-- The paragraph fallback of `extract_multi_axis_scores` (lines 252–262):
the first paragraph that contains the axis name (case-insensitively) and a
bare digit `\b([1-5])\b` yields the score. -/
def paraScoreGo (axisLower : List Char) : List (List Char) → Option Nat
  | [] => none
  | p :: ps =>
    if Py.containsPy (Py.lowerL p) axisLower then
      match Rex.reSearch false [.wb, .grp, .wb] p with
      | some c =>
        let score := digitScore c
        if 1 ≤ score ∧ score ≤ 5 then some score else paraScoreGo axisLower ps
      | none => paraScoreGo axisLower ps
    else paraScoreGo axisLower ps

/-- The `for i, pattern in enumerate(patterns)` loops (lines 207–214 and
241–248): first pattern whose match yields a score in `[1,5]`. -/
def firstPatScore (text : List Char) : List (Bool × List Rex.Pat) → Option Nat
  | [] => none
  | (ci, ps) :: rest =>
    match Rex.reSearch ci ps text with
    | some c =>
      let score := digitScore c
      if 1 ≤ score ∧ score ≤ 5 then some score else firstPatScore text rest
    | none => firstPatScore text rest

/-- Stages 2–4 of the per-axis cascade: the fallback pattern list, then the
section patterns, then the paragraph fallback. -/
def extractAxisFallbacks (text : List Char) (axis kw : String) : Option Nat :=
  match firstPatScore text (fallbackPats axis kw) with
  | some s => some s
  | none =>
    match firstPatScore text (sectionPats axis) with
    | some s => some s
    | none => paraScoreGo (Py.lowerL axis.toList) (splitParas text)

/-- The whole per-axis extraction of `extract_multi_axis_scores`
(lines 147–266): the exact keyword pattern first, falling back to the
cascade, `none` when nothing matched. -/
def extractAxisScore (text : List Char) (axis kw : String) : Option Nat :=
  match Rex.reSearch false (keywordPat kw) text with
  | some c =>
    let score := digitScore c
    if 1 ≤ score ∧ score ≤ 5 then some score else extractAxisFallbacks text axis kw
  | none => extractAxisFallbacks text axis kw

/-- Embeds `AxisScore` of `src/server/src/api/llm/proxy/models.py`. -/
structure AxisScore where
  name : String
  score : Option Nat
  deriving DecidableEq, Repr

/-- Embeds `extract_multi_axis_scores(text, axis_keywords)`: the loop appends
exactly one `AxisScore` per axis, in mapping order. -/
def extract_multi_axis_scores (text : String)
    (axis_keywords : List (String × String)) : List AxisScore :=
  axis_keywords.map (fun nk => { name := nk.1, score := extractAxisScore text.toList nk.1 nk.2 })

/-- Embeds `extract_score(text, ranking_keyword)` (lines 102–130): the single
keyword pattern only. -/
def extract_score (text : String) (ranking_keyword : String) : Option Nat :=
  match Rex.reSearch false (keywordPat ranking_keyword) text.toList with
  | some c =>
    let score := digitScore c
    if 1 ≤ score ∧ score ≤ 5 then some score else none
  | none => none

/-! ## Calculator plugin (`src/server/src/plugins/calculator_plugin.py`)

The expression ASTs produced by Python's `ast.parse(expression, mode='eval')`
are embedded as `PyExpr`; `ast.parse` itself (the Python parser) is kept
abstract as a parameter `parse`.  Python floats and complex numbers occur
only as intermediate values whose content no claim depends on, so they are
carried as values of untracked content. -/

namespace Calc

/-- Constant values (`ast.Constant.value`).  `cfloat` / `ccomplex` are
non-integer numeric literals of untracked value. -/
inductive PyConst where
  | cint : Int → PyConst
  | cbool : Bool → PyConst
  | cfloat : PyConst
  | ccomplex : PyConst
  | cstr : String → PyConst
  | cnone : PyConst
  deriving DecidableEq, Repr

/-- All `ast.BinOp` operator kinds.  The first seven are the keys of
`SAFE_OPERATORS`. -/
inductive BinOpK where
  | add | sub | mult | div | floorDiv | mod | pow
  | lshift | rshift | bitOr | bitXor | bitAnd | matMult
  deriving DecidableEq, Repr

/-- All `ast.UnaryOp` operator kinds.  `uadd`/`usub` are the keys of
`SAFE_OPERATORS`. -/
inductive UnaryOpK where
  | uadd | usub | notOp | invert
  deriving DecidableEq, Repr

/-- Expression AST node kinds.  `other kind` stands for any node kind other
than the listed ones (`Attribute`, `Lambda`, `Compare`, ...): both the
validator and the evaluator reject such a node by its kind alone, without
looking at its children, so the children are not carried. -/
inductive PyExpr where
  | const : PyConst → PyExpr
  | name : String → PyExpr
  | binOp : BinOpK → PyExpr → PyExpr → PyExpr
  | unaryOp : UnaryOpK → PyExpr → PyExpr
  | call : PyExpr → List PyExpr → PyExpr
  | other : String → PyExpr
  deriving Repr

/-- Keys of `MathEvaluator.allowed_names` (`pi`, `e`). -/
def allowedNames : List String := ["pi", "e"]

/-- Keys of `MathEvaluator.allowed_functions`. -/
def allowedFunctions : List String :=
  ["sin", "cos", "tan", "sqrt", "log", "log10", "exp", "abs", "round"]

/-- Python `isinstance(node.value, (int, float, complex))`; `bool` is a
subclass of `int`. -/
def isNumericConst : PyConst → Bool
  | .cint _ => true
  | .cbool _ => true
  | .cfloat => true
  | .ccomplex => true
  | .cstr _ => false
  | .cnone => false

/-- Membership of the operator kind in `SAFE_OPERATORS`. -/
def safeBin : BinOpK → Bool
  | .add | .sub | .mult | .div | .floorDiv | .mod | .pow => true
  | _ => false

/-- Membership of the unary operator kind in `SAFE_OPERATORS`. -/
def safeUnary : UnaryOpK → Bool
  | .uadd | .usub => true
  | _ => false

/-- Python `type(node.op).__name__` for binary operators. -/
def binOpName : BinOpK → String
  | .add => "Add" | .sub => "Sub" | .mult => "Mult" | .div => "Div"
  | .floorDiv => "FloorDiv" | .mod => "Mod" | .pow => "Pow"
  | .lshift => "LShift" | .rshift => "RShift" | .bitOr => "BitOr"
  | .bitXor => "BitXor" | .bitAnd => "BitAnd" | .matMult => "MatMult"

/-- Python `type(node.op).__name__` for unary operators. -/
def unaryOpName : UnaryOpK → String
  | .uadd => "UAdd" | .usub => "USub" | .notOp => "Not" | .invert => "Invert"

/-- Rendering of a constant for the `Unsafe constant:` message. -/
def constRepr : PyConst → String
  | .cint i => toString i
  | .cbool b => if b then "True" else "False"
  | .cfloat => "<float>"
  | .ccomplex => "<complex>"
  | .cstr s => s
  | .cnone => "None"

/-- Embeds `MathEvaluator._validate_node` (lines 51–101).  The `Constant`
branch first tests `node.value in self.allowed_names.values()` (equality
with the floats `math.pi` / `math.e`); any value equal to one of those is
numeric, so that test is subsumed by the numeric test here.  Note that the
`Call` branch inspects only the callee and does NOT recurse into the call's
arguments. -/
def validate_node : PyExpr → Except String Unit
  | .const c =>
    if isNumericConst c then .ok ()
    else .error ("Unsafe constant: " ++ constRepr c)
  | .name id =>
    if allowedNames.contains id then .ok ()
    else .error ("Unsafe name: " ++ id)
  | .call f _ =>
    match f with
    | .name id =>
      if allowedFunctions.contains id then .ok ()
      else .error ("Unsafe function call: " ++ id)
    | _ => .error "Unsafe function call: unknown"
  | .binOp op l r =>
    if safeBin op then
      match validate_node l with
      | .error m => .error m
      | .ok _ => validate_node r
    else .error ("Unsafe operation: " ++ binOpName op)
  | .unaryOp op e =>
    if safeUnary op then validate_node e
    else .error ("Unsafe operation: " ++ unaryOpName op)
  | .other kind => .error ("Unsupported node type: " ++ kind)

/-- Runtime values.  `vuntracked ty` is a value of the named Python type
whose content is not tracked (floats, complex numbers, and the results of
string %-formatting). -/
inductive PyVal where
  | vint : Int → PyVal
  | vbool : Bool → PyVal
  | vstr : String → PyVal
  | vnone : PyVal
  | vuntracked : String → PyVal
  deriving DecidableEq, Repr

/-- Value of a constant node (`_evaluate_node` returns `node.value` for any
constant). -/
def constVal : PyConst → PyVal
  | .cint i => .vint i
  | .cbool b => .vbool b
  | .cfloat => .vuntracked "float"
  | .ccomplex => .vuntracked "complex"
  | .cstr s => .vstr s
  | .cnone => .vnone

/-- Views a value as a Python `int` (`bool` coerces). -/
def intLike : PyVal → Option Int
  | .vint i => some i
  | .vbool b => some (if b then 1 else 0)
  | _ => none

/-- Tests for an untracked float. -/
def isFloatV : PyVal → Bool
  | .vuntracked t => t == "float"
  | _ => false

/-- Tests for an untracked complex number. -/
def isComplexV : PyVal → Bool
  | .vuntracked t => t == "complex"
  | _ => false

/-- Tests for any numeric value. -/
def isNumV (v : PyVal) : Bool :=
  (intLike v).isSome || isFloatV v || isComplexV v

/-- Python `s * n` on strings. -/
def strRepeat (s : String) (n : Int) : String :=
  String.join (List.replicate n.toNat s)

/-- Application of `SAFE_OPERATORS[type(node.op)]` to two values.  Unsafe
operator kinds raise `KeyError` on the dictionary lookup.  Integer
arithmetic follows Python exactly (floor division/modulo, zero checks);
operations with a float or complex operand produce a value of untracked
content; `%` on a string performs %-formatting, whose result is an
untracked string (Python may also raise there for format-free strings; no
claim reaches that case). -/
def applyBin (op : BinOpK) (a b : PyVal) : Except String PyVal :=
  if !safeBin op then .error ("KeyError: " ++ binOpName op)
  else
    match intLike a, intLike b with
    | some i, some j =>
      match op with
      | .add => .ok (.vint (i + j))
      | .sub => .ok (.vint (i - j))
      | .mult => .ok (.vint (i * j))
      | .div =>
        if j = 0 then .error "division by zero" else .ok (.vuntracked "float")
      | .floorDiv =>
        if j = 0 then .error "integer division or modulo by zero"
        else .ok (.vint (Int.fdiv i j))
      | .mod =>
        if j = 0 then .error "integer division or modulo by zero"
        else .ok (.vint (Int.fmod i j))
      | .pow =>
        if 0 ≤ j then .ok (.vint (i ^ j.toNat))
        else if i = 0 then .error "0.0 cannot be raised to a negative power"
        else .ok (.vuntracked "float")
      | _ => .error ("KeyError: " ++ binOpName op)
    | _, _ =>
      if isNumV a && isNumV b then
        if isComplexV a || isComplexV b then .ok (.vuntracked "complex")
        else .ok (.vuntracked "float")
      else
        match op, a, b with
        | .add, .vstr s, .vstr t => .ok (.vstr (s ++ t))
        | .mult, .vstr s, _ =>
          match intLike b with
          | some n => .ok (.vstr (strRepeat s n))
          | none => .error "TypeError: unsupported operand type(s)"
        | .mult, _, .vstr t =>
          match intLike a with
          | some n => .ok (.vstr (strRepeat t n))
          | none => .error "TypeError: unsupported operand type(s)"
        | .mod, .vstr _, _ => .ok (.vuntracked "str")
        | _, _, _ => .error "TypeError: unsupported operand type(s)"

/-- Application of `SAFE_OPERATORS[type(node.op)]` to one value. -/
def applyUnary (op : UnaryOpK) (v : PyVal) : Except String PyVal :=
  if !safeUnary op then .error ("KeyError: " ++ unaryOpName op)
  else
    match intLike v with
    | some i => .ok (.vint (if op = .usub then -i else i))
    | none =>
      if isFloatV v then .ok (.vuntracked "float")
      else if isComplexV v then .ok (.vuntracked "complex")
      else .error "TypeError: bad operand type for unary operator"

/-- Application of an `allowed_functions` entry to its evaluated arguments,
following Python's `math` module and builtins.  Domain conditions on
untracked floats cannot be tracked; those cases yield an untracked value of
the correct type (no claim reaches them). -/
def applyFunc (id : String) (args : List PyVal) : Except String PyVal :=
  match id, args with
  | "sin", [a] | "cos", [a] | "tan", [a] | "exp", [a] =>
    match intLike a with
    | some _ => .ok (.vuntracked "float")
    | none =>
      if isFloatV a then .ok (.vuntracked "float")
      else .error "TypeError: must be a real number"
  | "sqrt", [a] =>
    match intLike a with
    | some i => if i < 0 then .error "math domain error" else .ok (.vuntracked "float")
    | none =>
      if isFloatV a then .ok (.vuntracked "float")
      else .error "TypeError: must be a real number"
  | "log", [a] | "log10", [a] =>
    match intLike a with
    | some i => if i ≤ 0 then .error "math domain error" else .ok (.vuntracked "float")
    | none =>
      if isFloatV a then .ok (.vuntracked "float")
      else .error "TypeError: must be a real number"
  | "log", [a, b] =>
    if (isNumV a && !isComplexV a) && (isNumV b && !isComplexV b) then
      match intLike a, intLike b with
      | some i, _ =>
        if i ≤ 0 then .error "math domain error" else .ok (.vuntracked "float")
      | _, _ => .ok (.vuntracked "float")
    else .error "TypeError: must be a real number"
  | "abs", [a] =>
    match intLike a with
    | some i => .ok (.vint (if i < 0 then -i else i))
    | none =>
      if isFloatV a || isComplexV a then .ok (.vuntracked "float")
      else .error "TypeError: bad operand type for abs()"
  | "round", [a] =>
    match intLike a with
    | some i => .ok (.vint i)
    | none =>
      if isFloatV a then .ok (.vuntracked "int")
      else .error "TypeError: type cannot be rounded"
  | "round", [a, n] =>
    match intLike a, n with
    | some i, .vnone => .ok (.vint i)
    | some i, _ =>
      match intLike n with
      | some m =>
        if 0 ≤ m then .ok (.vint i) else .ok (.vuntracked "int")
      | none => .error "TypeError: ndigits must be an integer or None"
    | none, _ =>
      if isFloatV a then
        match n with
        | .vnone => .ok (.vuntracked "int")
        | _ =>
          match intLike n with
          | some _ => .ok (.vuntracked "float")
          | none => .error "TypeError: ndigits must be an integer or None"
      else .error "TypeError: type cannot be rounded"
  | _, _ => .error ("TypeError: wrong number of arguments to " ++ id)

mutual

/-- Embeds `MathEvaluator._evaluate_node` (lines 103–139).  Note that it
returns `node.value` for ANY constant — also non-numeric ones reached
through unvalidated call arguments. -/
def evalNode : PyExpr → Except String PyVal
  | .const c => .ok (constVal c)
  | .name id =>
    if allowedNames.contains id then .ok (.vuntracked "float")
    else .error ("Unknown variable: " ++ id)
  | .unaryOp op e =>
    match evalNode e with
    | .error m => .error m
    | .ok v => applyUnary op v
  | .binOp op l r =>
    match evalNode l with
    | .error m => .error m
    | .ok a =>
      match evalNode r with
      | .error m => .error m
      | .ok b => applyBin op a b
  | .call f args =>
    match f with
    | .name id =>
      if allowedFunctions.contains id then
        match evalArgs args with
        | .error m => .error m
        | .ok vs => applyFunc id vs
      else .error ("Function not allowed: " ++ id)
    | _ => .error "Function not allowed: unknown"
  | .other kind => .error ("Unsupported expression type: " ++ kind)

/-- Left-to-right evaluation of call arguments
(`[self._evaluate_node(arg) for arg in node.args]`). -/
def evalArgs : List PyExpr → Except String (List PyVal)
  | [] => .ok []
  | a :: as =>
    match evalNode a with
    | .error m => .error m
    | .ok v =>
      match evalArgs as with
      | .error m => .error m
      | .ok vs => .ok (v :: vs)

end

/-- Embeds the post-parse part of `MathEvaluator.evaluate` (lines 151–160):
validate, then evaluate, wrapping any evaluation exception as
`ExpressionValidationError("Evaluation error: ...")`. -/
def evaluate_tree (tree : PyExpr) : Except String PyVal :=
  match validate_node tree with
  | .error m => .error m
  | .ok _ =>
    match evalNode tree with
    | .ok v => .ok v
    | .error m => .error ("Evaluation error: " ++ m)

/-- Embeds `MathEvaluator.evaluate` (lines 141–160), with Python's
`ast.parse(expression, mode='eval')` abstracted as `parse` (a `.error`
standing for a `SyntaxError`). -/
def evaluate (parse : String → Except String PyExpr) (expression : String) :
    Except String PyVal :=
  match parse expression with
  | .error m => .error ("Invalid expression syntax: " ++ m)
  | .ok tree => evaluate_tree tree

end Calc

/-! ## Plugin interface (`src/src/core/plugin_system/plugin_interface.py`)

`PluginRequest` / `PluginResponse` are pydantic models.  Pydantic
construction ignores unknown keyword arguments and raises a
`ValidationError` when a required field (one without a default) is missing;
`PluginResponse` requires `request_id` and `status`.  The auto-generated
`timestamp` fields carry wall-clock time and are not modelled. -/

/-- Embeds `PluginRequest` (parameter values are opaque strings here; the
claims only ever read the `expression` parameter). -/
structure PluginRequest where
  request_id : String
  action : String
  parameters : List (String × String)
  deriving DecidableEq, Repr

/-- Embeds `PluginResponse`.  The calculator's `data` payload is its
`{expression, result, type}` dictionary. -/
structure PluginResponse where
  request_id : String
  status : String
  data : Option (String × Calc.PyVal × String)
  error : Option String
  metadata : List (String × String)
  deriving DecidableEq, Repr

/-- Pydantic construction of a `PluginResponse` from keyword arguments:
`none` marks a field for which no keyword argument was supplied.  The
required `request_id` and `status` must be present; `data`, `error` and
`metadata` have defaults.  A missing required field raises
`pydantic.ValidationError`, modelled as `.error`. -/
def mkPluginResponse (request_id status : Option String)
    (data : Option (String × Calc.PyVal × String)) (error : Option String)
    (metadata : List (String × String)) : Except String PluginResponse :=
  match request_id, status with
  | some rid, some st =>
    .ok { request_id := rid, status := st, data := data, error := error,
          metadata := metadata }
  | _, _ =>
    .error "validation error for PluginResponse: request_id, status: field required"

/-- Python `type(result).__name__`. -/
def pyTypeName : Calc.PyVal → String
  | .vint _ => "int"
  | .vbool _ => "bool"
  | .vstr _ => "str"
  | .vnone => "NoneType"
  | .vuntracked t => t

/-- Embeds the `isinstance(result, float) and result.is_integer()`
normalization of `CalculatorPlugin.execute` (lines 233–234).  Float values
are untracked, so the conversion acts as the identity; no claim depends on
a float result. -/
def intIfIntegerFloat (v : Calc.PyVal) : Calc.PyVal := v

/-- Embeds `CalculatorPlugin.execute` (lines 210–255).  The success path
calls `PluginResponse(plugin_name=..., success=True, data=..., metadata=...)`:
`plugin_name` and `success` are not fields of `PluginResponse`, and the
required `request_id` and `status` are not supplied, so pydantic raises a
`ValidationError`, which the surrounding `except Exception` turns into an
error-status response.  The error path supplies both required fields and
always succeeds. -/
def calculator_execute (parse : String → Except String Calc.PyExpr)
    (request : PluginRequest) : PluginResponse :=
  let body : Except String PluginResponse :=
    match request.parameters.lookup "expression" with
    | none => .error "No expression provided"
    | some expression =>
      if expression = "" then .error "No expression provided"
      else
        match Calc.evaluate parse expression with
        | .error m => .error m
        | .ok result =>
          let result := intIfIntegerFloat result
          mkPluginResponse none none
            (some (expression, result, pyTypeName result)) none
            [("execution_time", "0ms")]
  match body with
  | .ok r => r
  | .error e =>
    match mkPluginResponse (some request.request_id) (some "error") none
        (some e) [] with
    | .ok r => r
    | .error _ =>
      { request_id := request.request_id, status := "error", data := none,
        error := some e, metadata := [] }

/-! ## MCP tool calls (`src/src/core/external_mcp/external_mcp_client.py`,
`external_mcp_models.py`)

`MCPToolResponse` is a pydantic model with a required `content` field and a
defaulted `isError`.  The HTTP transport is abstracted as a per-attempt
outcome; `text` of a 200 response is the SSE body. -/

/-- Embeds `MCPToolResponse` of `external_mcp_models.py` (`content` is the
raw JSON value stored into the field). -/
structure MCPToolResponse where
  content : Json
  isError : Bool

/-- Pydantic construction of an `MCPToolResponse` from keyword arguments
(`none` = not supplied).  `content` is required; `isError` defaults to
`False`; unknown keyword arguments are ignored. -/
def mkMCPToolResponse (content : Option Json) (isError : Option Bool) :
    Except String MCPToolResponse :=
  match content with
  | some c => .ok { content := c, isError := isError.getD false }
  | none =>
    .error "validation error for MCPToolResponse: content: field required"

/-- Outcome of one `session.post` of a tool call: a 200 response with an
SSE body, or a non-200 status. -/
inductive HttpOutcome where
  | ok200 : String → HttpOutcome
  | httpError : Nat → HttpOutcome

/-- Embeds `result.get("content", []) if isinstance(result, dict) else []`. -/
def toolContentOf (result : Option Json) : Json :=
  match result with
  | some r =>
    match r.lookup "content" with
    | some c => c
    | none => Json.arr []
  | none => Json.arr []

/-- Embeds `ExternalMCPClient._execute_tool_call` (lines 386–459): `none`
asks the caller to retry (non-200 status).  `parse_mcp_result` never raises
`SSEParseError` (it catches it internally), so the `except SSEParseError`
retry branch of the Python code is unreachable; parse failures surface as
`success=False` and produce an error-flagged response without retry. -/
def execute_tool_call (dec : String → Option Json) (outcome : HttpOutcome) :
    Option MCPToolResponse :=
  match outcome with
  | .httpError _ => none
  | .ok200 text =>
    let (success, result, error_msg) := SSEParser.parse_mcp_result dec text
    if success then
      some { content := toolContentOf result, isError := false }
    else
      some { content := Json.arr [Json.obj
               [("type", Json.str "text"),
                ("text", Json.str ("Error: " ++ error_msg.getD "None"))]],
             isError := true }

/-- The retry loop of `call_tool`: first attempt (in `1..max_retries`)
whose `_execute_tool_call` returns a response. -/
def callToolAttempts (dec : String → Option Json)
    (outcomes : Nat → HttpOutcome) : List Nat → Option MCPToolResponse
  | [] => none
  | a :: as =>
    match execute_tool_call dec (outcomes a) with
    | some r => some r
    | none => callToolAttempts dec outcomes as

/-- Embeds `ExternalMCPClient.call_tool` (lines 461–509) after session
initialization, with the server's per-attempt behaviour abstracted as
`outcomes`.  After exhausting all attempts the code runs
`MCPToolResponse(success=False, error=..., result=None)`: none of those
keyword arguments is a field of the model and the required `content` is
missing, so pydantic raises a `ValidationError` (modelled as `.error`)
instead of returning an error-flagged response. -/
def call_tool (dec : String → Option Json) (max_retries : Nat)
    (outcomes : Nat → HttpOutcome) (tool_name : String) :
    Except String MCPToolResponse :=
  match callToolAttempts dec outcomes (List.range' 1 max_retries) with
  | some r => .ok r
  | none =>
    match mkMCPToolResponse none none with
    | .ok r => .ok r
    | .error e => .error e

/-! ## MCP session initialization (`external_mcp_client.py` lines 88–250)

The two POSTs of the handshake are modelled by the two server responses
they would receive; the request trace records what was sent. -/

/-- The mutable MCP-session state of `ExternalMCPClient` (`self.session_id`
and `self.initialized`). -/
structure MCPClientState where
  session_id : Option String
  inited : Bool
  deriving DecidableEq, Repr

/-- An HTTP response as the client reads it: status code, the
`mcp-session-id` header if present, and the body text. -/
structure HttpResp where
  status : Nat
  sessionHeader : Option String
  body : String

/-- Requests sent during the handshake: the `initialize` POST, and the
`notifications/initialized` POST with the session-id header it carried. -/
inductive SentReq where
  | initReq : SentReq
  | notifReq : Option String → SentReq
  deriving DecidableEq, Repr

/-- Embeds `MCPProtocolError(method, message, ...)`. -/
structure MCPErr where
  method : String
  message : String
  deriving DecidableEq, Repr

/-- Embeds `_send_initialize_request` (lines 124–191): on a 200 response it
first stores the `mcp-session-id` header (if present) into
`self.session_id`, then parses the SSE body and raises `MCPProtocolError`
when the server returned an error; a non-200 status raises directly.  The
`except SSEParseError` branch is unreachable (`parse_mcp_result` catches
internally).  The state component is returned even on error — in Python
the assignment to `self.session_id` has already happened when the
exception is raised. -/
def send_initialize_request (dec : String → Option Json) (resp : HttpResp)
    (st : MCPClientState) : MCPClientState × Except MCPErr Unit :=
  if resp.status = 200 then
    let st1 :=
      match resp.sessionHeader with
      | some sid => { st with session_id := some sid }
      | none => st
    let (success, _result, error_msg) := SSEParser.parse_mcp_result dec resp.body
    if success then (st1, .ok ())
    else
      (st1, .error ⟨"initialize",
        "MCP initialization error: " ++ error_msg.getD "None"⟩)
  else
    (st, .error ⟨"initialize",
      "Failed to initialize MCP session: " ++ toString resp.status⟩)

/-- Embeds `_send_initialized_notification` (lines 213–250): accepts 200
and 202 (`SUCCESS_STATUS_CODES`), raising otherwise. -/
def send_initialized_notification (resp : HttpResp) : Except MCPErr Unit :=
  if resp.status = 200 ∨ resp.status = 202 then .ok ()
  else
    .error ⟨"notifications/initialized",
      "Failed to send initialized notification: " ++ toString resp.status⟩

/-- Embeds `initialize_session` / `_initialize_mcp_session` (lines 88–100
and 193–211): build and send the `initialize` request, then the
`initialized` notification (whose headers carry `self.session_id` if set),
then mark the session initialized.  There is no guard on
`self.initialized`: every call re-runs the whole handshake.  `initResp`
and `notifResp` are the server's responses to the two POSTs; the returned
list is the trace of requests sent. -/
def init_session (dec : String → Option Json) (initResp notifResp : HttpResp)
    (st : MCPClientState) :
    MCPClientState × Except MCPErr Unit × List SentReq :=
  let (st1, r1) := send_initialize_request dec initResp st
  match r1 with
  | .error e => (st1, .error e, [.initReq])
  | .ok _ =>
    match send_initialized_notification notifResp with
    | .error e => (st1, .error e, [.initReq, .notifReq st1.session_id])
    | .ok _ =>
      ({ st1 with inited := true }, .ok (),
       [.initReq, .notifReq st1.session_id])

/-! ## Multi-step plan execution
(`src/src/core/routing/semantic_router.py` lines 441–496)

Plugin execution (`plugin_manager.execute_plugin`) is abstracted as a total
function `execP`; the returned trace lists, in order, the steps for which a
plugin was invoked. -/

/-- One step of a `MultiStepPlan` (`depends_on` is absent when the key is
not in the step dictionary). -/
structure PlanStep where
  plugin_name : String
  parameters : List (String × String)
  depends_on : Option (List Int)
  deriving DecidableEq, Repr

/-- Embeds `MultiStepPlan`. -/
structure MultiStepPlan where
  steps : List PlanStep
  deriving DecidableEq, Repr

/-- Embeds `RoutingDecisionError(f"Step {i}", message)`. -/
structure RoutingErr where
  step : String
  message : String
  deriving DecidableEq, Repr

/-- The `for dep_idx in step["depends_on"]` loop: first dependency with
`dep_idx >= i`. -/
def findBadDep (i : Nat) : List Int → Option Int
  | [] => none
  | d :: ds => if (i : Int) ≤ d then some d else findBadDep i ds

/-- The `for i, step in enumerate(plan.steps)` loop of `execute_multi_step`:
each iteration validates THIS step's dependencies and then immediately
executes it, so a bad dependency at step `i` is detected only after steps
`0..i-1` have already run. -/
def executeSteps {R : Type} (execP : Nat → PlanStep → R) :
    Nat → List PlanStep → List (Nat × String) → List R →
    List (Nat × String) × Except RoutingErr (List R)
  | _, [], trace, responses => (trace.reverse, .ok responses.reverse)
  | i, step :: rest, trace, responses =>
    let bad :=
      match step.depends_on with
      | some deps => findBadDep i deps
      | none => none
    match bad with
    | some d =>
      (trace.reverse, .error ⟨"Step " ++ toString i,
        "Invalid dependency: step " ++ toString i ++
          " depends on unexecuted step " ++ toString d⟩)
    | none =>
      let r := execP i step
      executeSteps execP (i + 1) rest ((i, step.plugin_name) :: trace)
        (r :: responses)

/-- Embeds `SemanticRouter.execute_multi_step` (lines 441–496) with a
pre-computed plan.  The first component is the trace of plugin invocations
`(step index, plugin name)`; the second the returned response list or the
raised `RoutingDecisionError`. -/
def execute_multi_step {R : Type} (execP : Nat → PlanStep → R)
    (plan : MultiStepPlan) :
    List (Nat × String) × Except RoutingErr (List R) :=
  executeSteps execP 0 plan.steps [] []

/-! ## Evaluation orchestrator (`src/server/src/api/llm/proxy/router.py`,
`evaluate_applicant`, lines 120–404)

The enrichment try-block (plugin manager construction, profile fetch,
resume parse — lines 155–223) is abstracted as `tryBlock`, a computation
over the four per-request variables it mutates, which either completes
(`.ok`) or raises with the variables as mutated so far (`.error`); the
`except` handler appends `"Plugin enrichment failed: ..."` to the log
exactly as lines 224–228 do.  `format_enrichment_data` and the prompt
build + provider call + completion extraction (lines 265–316) are
abstracted as `formatE` and `generate`; `E` is the type of the structured
enrichment data. -/

/-- The four variables of the enrichment phase (`enrichment_data`,
`enrichment_log`, `linkedin_data_json`, `pdf_data_json`). -/
structure EnrichVars (E : Type) where
  enrichment_data : Option E
  enrichment_log : List String
  linkedin_json : Option String
  pdf_json : Option String

/-- Embeds lines 146–234: the initial variable values, the
`if request.use_plugin and request.source_url:` guard, the pre-try log
line, and the `except Exception` handler that records the failure in the
log and continues. -/
def runEnrichment {E : Type} (use_plugin : Bool) (source_url : Option String)
    (tryBlock : List String → Except (EnrichVars E × String) (EnrichVars E)) :
    EnrichVars E :=
  let init : EnrichVars E := ⟨none, [], none, none⟩
  match source_url with
  | some u =>
    if use_plugin && u ≠ "" then
      let log0 := ["Enrichment requested for URL: " ++ u]
      match tryBlock log0 with
      | .ok v => v
      | .error (v, msg) =>
        { v with enrichment_log :=
            v.enrichment_log ++ ["Plugin enrichment failed: " ++ msg] }
    else init
  | none => init

/-- The fields of `EvaluationRequest` that `evaluate_applicant` branches
on (template/criteria fields feed the abstracted prompt build). -/
structure EvaluationRequest where
  provider : String
  model : String
  applicant_data : String
  use_multi_axis : Bool
  use_plugin : Bool
  source_url : Option String
  deriving DecidableEq, Repr

/-- Embeds `EvaluationResponse` of `proxy/models.py`. -/
structure EvaluationResponse where
  result : String
  score : Option Nat
  scores : Option (List AxisScore)
  provider : String
  model : String
  deriving DecidableEq, Repr

/-- One line of the `[MULTI_AXIS_SCORES]` block (lines 373–378). -/
def axisLine (a : AxisScore) : String :=
  match a.score with
  | some s => a.name ++ ": " ++ toString s
  | none => a.name ++ ": Not found"

/-- Embeds `evaluate_applicant`.  `kwSingle` / `kwMulti` are the ranking
keywords returned by `build_evaluation_prompt` for the two modes;
`generate` maps the enhanced applicant data to the completion text (or a
raised provider error, which the outer handler turns into an HTTP 500,
modelled as `.error`). -/
def evaluate_applicant {E : Type} (request : EvaluationRequest)
    (tryBlock : List String → Except (EnrichVars E × String) (EnrichVars E))
    (formatE : E → String) (kwSingle : String)
    (kwMulti : List (String × String))
    (generate : String → Except String String) :
    Except String EvaluationResponse :=
  let vars := runEnrichment request.use_plugin request.source_url tryBlock
  -- lines 237–246: format the enrichment and append it to the applicant data
  let (enhanced, vars2) :=
    match vars.enrichment_data with
    | some d =>
      let enrichment_text := formatE d
      let vars1 := { vars with enrichment_log :=
        vars.enrichment_log ++ ["Formatted enrichment data for prompt"] }
      if enrichment_text ≠ "" then
        (request.applicant_data ++ "\n\n### CANDIDATE ENRICHMENT DATA:\n" ++
           enrichment_text,
         { vars1 with enrichment_log :=
             vars1.enrichment_log ++ ["Added enrichment data to applicant data"] })
      else (request.applicant_data, vars1)
    | none => (request.applicant_data, vars)
  match generate enhanced with
  | .error e => .error ("Evaluation error: " ++ e)
  | .ok completion0 =>
    -- lines 318–380: score extraction and the [MULTI_AXIS_SCORES] block
    let scoresTriple :=
      if request.use_multi_axis then
        let ss := extract_multi_axis_scores completion0 kwMulti
        let extracted_count := (ss.filter (fun s => s.score.isSome)).length
        let sc :=
          match ss.head? with
          | some a => a.score
          | none => none
        let c1 :=
          if extracted_count = 0 then
            completion0 ++ "\n\n[WARNING] No multi-axis scores could be extracted from the LLM response. Please check the prompt format and extraction logic."
          else completion0
        let c2 :=
          c1 ++
            (if ss.length > 0 then
              "\n\n[MULTI_AXIS_SCORES]\n" ++ Py.joinNl (ss.map axisLine) ++
                "\n[END_MULTI_AXIS_SCORES]"
            else "")
        (some ss, sc, c2)
      else (none, extract_score completion0 kwSingle, completion0)
    let scores := scoresTriple.1
    let score := scoresTriple.2.1
    let completionA := scoresTriple.2.2
    -- lines 382–389: diagnostic tails
    let completionB :=
      completionA ++
        (if vars2.enrichment_log.isEmpty then ""
         else
           "\n\n[ENRICHMENT LOG]\n" ++ Py.joinNl vars2.enrichment_log ++
             "\n[END ENRICHMENT LOG]")
    let completionC :=
      completionB ++
        (match vars2.linkedin_json with
         | some lj =>
           if lj ≠ "" then
             "\n\n[LINKEDIN_DATA]\n" ++ lj ++ "\n[END_LINKEDIN_DATA]"
           else ""
         | none => "")
    let completionD :=
      completionC ++
        (match vars2.pdf_json with
         | some pj =>
           if pj ≠ "" then
             "\n\n[PDF_RESUME_DATA]\n" ++ pj ++ "\n[END_PDF_RESUME_DATA]"
           else ""
         | none => "")
    .ok { result := completionD, score := score, scores := scores,
          provider := request.provider, model := request.model }

/-! # Theorems -/

/-! ## C1 — vendor-B system split -/

/-- C1: for EVERY input message list — whatever the arrangement of system
and non-system messages — the Anthropic adapter's payload sets `system` to
the newline-concatenation of the contents of all system-role messages,
omitted exactly when there are none (conjunct 3 pins the value, conjunct 4
the omission), and sets `messages` to the non-system messages in their
original order, with no system entry remaining; in particular, for zero or
more system messages followed by one non-system message, `messages` is
exactly that one message and `system` joins the system contents. -/
theorem anthropic_prepare_request_system_split {F : Type}
    (r : ProviderRequest F) (sys : List Message) (u : Message)
    (hsys : ∀ m ∈ sys, isSystemMsg m = true) (hu : isSystemMsg u = false) :
    (∀ m ∈ (prepare_request r).messages, isSystemMsg m = false)
    ∧ (prepare_request r).messages =
        r.messages.filter (fun m => !(isSystemMsg m))
    ∧ (prepare_request r).system =
        (if r.messages.filter (fun m => isSystemMsg m) = [] then none
         else some (Py.joinNl
           ((r.messages.filter (fun m => isSystemMsg m)).map
             (fun m => m.content))))
    ∧ ((prepare_request r).system = none ↔
        r.messages.filter (fun m => isSystemMsg m) = [])
    ∧ (prepare_request { r with messages := sys ++ [u] }).messages = [u]
    ∧ (prepare_request { r with messages := sys ++ [u] }).system =
        (if sys = [] then none
         else some (Py.joinNl (sys.map (fun m => m.content)))) := by
  refine ⟨?_, ?_, ?_, ?_, ?_, ?_⟩
  · intro m hm
    simp only [prepare_request, List.mem_filter] at hm
    simpa using hm.2
  · rfl
  · simp only [prepare_request]
    by_cases hf : (r.messages.filter (fun m => isSystemMsg m)) = []
    · simp [hf, List.isEmpty_iff]
    · simp [hf, List.isEmpty_iff, List.map_eq_nil_iff]
  · simp only [prepare_request]
    constructor
    · intro h
      by_cases hf : (r.messages.filter (fun m => isSystemMsg m)) = []
      · exact hf
      · simp [List.isEmpty_iff, List.map_eq_nil, hf] at h
    · intro h
      simp [h, List.isEmpty_iff]
  · simp only [prepare_request, List.filter_append]
    rw [List.filter_eq_nil.mpr (by intro m hm; simpa using hsys m hm)]
    simp [hu]
  · simp only [prepare_request, List.filter_append]
    rw [List.filter_eq_self.mpr (by intro m hm; simpa using hsys m hm)]
    rcases sys with _ | ⟨m, ms⟩
    · simp [hu]
    · simp [hu, List.isEmpty_iff]

/-- Witness for C1 at two concrete requests: two system messages (one of
them upper-case `System`) followed by a user message, and — for the
universal value conjunct — a list placing the system message AFTER the
user message. -/
theorem anthropic_prepare_request_system_split_witness :
    (prepare_request (F := Unit)
        { model := "claude", messages :=
            [⟨"system", "S1"⟩, ⟨"System", "S2"⟩] ++ [⟨"user", "U"⟩],
          max_tokens := some 100, temperature := none,
          top_p := none }).messages = [⟨"user", "U"⟩]
    ∧ (prepare_request (F := Unit)
        { model := "claude", messages :=
            [⟨"system", "S1"⟩, ⟨"System", "S2"⟩] ++ [⟨"user", "U"⟩],
          max_tokens := some 100, temperature := none,
          top_p := none }).system = some "S1\nS2"
    ∧ (prepare_request (F := Unit)
        { model := "claude", messages := [⟨"user", "U"⟩, ⟨"system", "S"⟩],
          max_tokens := some 100, temperature := none,
          top_p := none }).system = some "S" := by
  have h := anthropic_prepare_request_system_split (F := Unit)
    { model := "claude",
      messages := [⟨"system", "S1"⟩, ⟨"System", "S2"⟩] ++ [⟨"user", "U"⟩],
      max_tokens := some 100, temperature := none, top_p := none }
    [⟨"system", "S1"⟩, ⟨"System", "S2"⟩] ⟨"user", "U"⟩
    (by decide) (by decide)
  have h2 := anthropic_prepare_request_system_split (F := Unit)
    { model := "claude", messages := [⟨"user", "U"⟩, ⟨"system", "S"⟩],
      max_tokens := some 100, temperature := none, top_p := none }
    [] ⟨"user", "U"⟩ (by decide) (by decide)
  exact ⟨h.2.2.2.2.1, by rw [h.2.2.2.2.2]; rfl, by rw [h2.2.2.1]; rfl⟩

/-! ## C10 — the SSE parser keeps only the last event/data lines -/

/-- The last line satisfying `p` (the fold of `parse_event` overwrites on
every match, so the last one wins). -/
def lastThat (p : List Char → Bool) : List (List Char) → Option (List Char)
  | [] => none
  | l :: ls =>
    match lastThat p ls with
    | some r => some r
    | none => if p l then some l else none

/-- The event name `parse_event` ends up with: the last `event: ` line,
stripped. -/
def lastEventName (lines : List (List Char)) : Option String :=
  (lastThat (fun l => Py.leadsWith "event: ".toList l) lines).map
    (fun l => String.mk (Py.pyStrip (l.drop 7)))

/-- The data payload `parse_event` ends up with: the last non-event
`data: ` line with non-empty stripped payload, decoded. -/
def lastDataPayload (dec : String → Option Json)
    (lines : List (List Char)) : Option Json :=
  (lastThat (fun l => !Py.leadsWith "event: ".toList l &&
      (Py.leadsWith "data: ".toList l &&
        String.mk (Py.pyStrip (l.drop 6)) ≠ "")) lines).map
    (fun l => SSEParser.decodeOrRaw dec (String.mk (Py.pyStrip (l.drop 6))))

/-- Helper: first-some choice on options (later lines override earlier
ones in the fold, so the "last" value is tried first). -/
def orElseO {α : Type} (a b : Option α) : Option α :=
  match a with
  | some x => some x
  | none => b

@[simp] theorem orElseO_some {α : Type} (x : α) (b : Option α) :
    orElseO (some x) b = some x := rfl

@[simp] theorem orElseO_none_left {α : Type} (b : Option α) :
    orElseO none b = b := rfl

theorem orElseO_none {α : Type} (a : Option α) : orElseO a none = a := by
  cases a <;> rfl

theorem orElseO_assoc {α : Type} (a b c : Option α) :
    orElseO (orElseO a b) c = orElseO a (orElseO b c) := by
  cases a <;> rfl

theorem map_orElseO {α β : Type} (f : α → β) (a b : Option α) :
    (orElseO a b).map f = orElseO (a.map f) (b.map f) := by
  cases a <;> rfl

theorem lastThat_cons (p : List Char → Bool) (l : List Char)
    (ls : List (List Char)) :
    lastThat p (l :: ls) = orElseO (lastThat p ls) (lastThat p [l]) := by
  simp only [lastThat]
  cases lastThat p ls <;> rfl

theorem lastEventName_cons (l : List Char) (ls : List (List Char)) :
    lastEventName (l :: ls) =
      orElseO (lastEventName ls) (lastEventName [l]) := by
  simp only [lastEventName, lastThat]
  cases lastThat (fun l => Py.leadsWith "event: ".toList l) ls <;> rfl

theorem lastDataPayload_cons (dec : String → Option Json) (l : List Char)
    (ls : List (List Char)) :
    lastDataPayload dec (l :: ls) =
      orElseO (lastDataPayload dec ls) (lastDataPayload dec [l]) := by
  simp only [lastDataPayload, lastThat]
  cases lastThat (fun l => !Py.leadsWith "event: ".toList l &&
      (Py.leadsWith "data: ".toList l &&
        String.mk (Py.pyStrip (l.drop 6)) ≠ "")) ls <;> rfl

/-- One fold step agrees with the one-line characterization. -/
theorem parseEventStep_fst (dec : String → Option Json)
    (acc : Option String × Option Json) (l : List Char) :
    (SSEParser.parseEventStep dec acc l).1 =
      orElseO (lastEventName [l]) acc.1 := by
  simp only [SSEParser.parseEventStep, lastEventName, lastThat]
  by_cases h1 : Py.leadsWith "event: ".toList l = true
  · rw [if_pos h1, if_pos h1]; rfl
  · rw [if_neg h1, if_neg h1]
    by_cases h2 : Py.leadsWith "data: ".toList l = true
    · rw [if_pos h2]
      by_cases h3 : String.mk (Py.pyStrip (l.drop 6)) ≠ ""
      · rw [if_pos h3]; rfl
      · rw [if_neg h3]; rfl
    · rw [if_neg h2]; rfl

theorem parseEventStep_snd (dec : String → Option Json)
    (acc : Option String × Option Json) (l : List Char) :
    (SSEParser.parseEventStep dec acc l).2 =
      orElseO (lastDataPayload dec [l]) acc.2 := by
  simp only [SSEParser.parseEventStep, lastDataPayload, lastThat]
  by_cases h1 : Py.leadsWith "event: ".toList l = true
  · rw [if_pos h1]
    have hb : (!Py.leadsWith "event: ".toList l &&
        (Py.leadsWith "data: ".toList l &&
          String.mk (Py.pyStrip (l.drop 6)) ≠ "")) = false := by
      rw [h1]; rfl
    rw [if_neg (by rw [hb]; exact Bool.false_ne_true)]; rfl
  · rw [if_neg h1]
    have hne : (!Py.leadsWith "event: ".toList l) = true := by
      cases hx : Py.leadsWith "event: ".toList l
      · rfl
      · exact absurd hx h1
    by_cases h2 : Py.leadsWith "data: ".toList l = true
    · rw [if_pos h2]
      by_cases h3 : String.mk (Py.pyStrip (l.drop 6)) ≠ ""
      · rw [if_pos h3]
        have hb : (!Py.leadsWith "event: ".toList l &&
            (Py.leadsWith "data: ".toList l &&
              String.mk (Py.pyStrip (l.drop 6)) ≠ "")) = true := by
          rw [hne, h2, decide_eq_true h3]; rfl
        rw [if_pos hb]; rfl
      · rw [if_neg h3]
        have hb : (!Py.leadsWith "event: ".toList l &&
            (Py.leadsWith "data: ".toList l &&
              String.mk (Py.pyStrip (l.drop 6)) ≠ "")) = false := by
          rw [hne, h2, decide_eq_false h3]; rfl
        rw [if_neg (by rw [hb]; exact Bool.false_ne_true)]; rfl
    · have hb : (!Py.leadsWith "event: ".toList l &&
          (Py.leadsWith "data: ".toList l &&
            String.mk (Py.pyStrip (l.drop 6)) ≠ "")) = false := by
        cases hx : Py.leadsWith "data: ".toList l
        · rw [hne]; rfl
        · exact absurd hx h2
      rw [if_neg h2, if_neg (by rw [hb]; exact Bool.false_ne_true)]; rfl

/-- The fold of `parse_event` against any accumulator is determined by the
last matching lines. -/
theorem foldl_parseEventStep (dec : String → Option Json)
    (lines : List (List Char)) :
    ∀ acc : Option String × Option Json,
      lines.foldl (SSEParser.parseEventStep dec) acc =
        (orElseO (lastEventName lines) acc.1,
         orElseO (lastDataPayload dec lines) acc.2) := by
  induction lines with
  | nil => intro acc; rfl
  | cons l ls ih =>
    intro acc
    rw [List.foldl_cons, ih, lastEventName_cons, lastDataPayload_cons,
      orElseO_assoc, orElseO_assoc, parseEventStep_fst, parseEventStep_snd]

/-- C10: when `parse_event` sees several `data:` lines, only the decoding
of the last non-empty one is returned (earlier payloads are discarded),
and the returned event name is that of the last `event:` line. -/
theorem parse_event_last_line_wins (dec : String → Option Json)
    (text : String) (h : text ≠ "") :
    SSEParser.parse_event dec text =
      .ok (lastEventName (SSEParser.linesOf text),
           lastDataPayload dec (SSEParser.linesOf text)) := by
  simp only [SSEParser.parse_event, if_neg h, foldl_parseEventStep,
    orElseO_none]

/-- Witness for C10: two `event:` lines and three `data:` lines (one
empty); the second event name and the decoding of the last non-empty data
line are returned. -/
theorem parse_event_last_line_wins_witness :
    ("event: a\ndata: one\nevent: message\ndata: two\ndata: \n" ≠ "")
    ∧ SSEParser.parse_event (fun _ => none)
        "event: a\ndata: one\nevent: message\ndata: two\ndata: \n" =
      .ok (some "message", some (Json.obj [("raw", Json.str "two")])) :=
  ⟨by decide,
   by rw [parse_event_last_line_wins (fun _ => none) _ (by decide)]; rfl⟩

/-! ## C4 — multi-axis extraction shape and score bounds -/

theorem firstPatScore_bounds (text : List Char) :
    ∀ (l : List (Bool × List Rex.Pat)) (v : Nat),
      firstPatScore text l = some v → 1 ≤ v ∧ v ≤ 5 := by
  intro l
  induction l with
  | nil => intro v h; simp [firstPatScore] at h
  | cons p rest ih =>
    intro v h
    obtain ⟨ci, ps⟩ := p
    simp only [firstPatScore] at h
    split at h
    · split at h
      · cases h
        assumption
      · exact ih v h
    · exact ih v h

theorem paraScoreGo_bounds (axisLower : List Char) :
    ∀ (ps : List (List Char)) (v : Nat),
      paraScoreGo axisLower ps = some v → 1 ≤ v ∧ v ≤ 5 := by
  intro ps
  induction ps with
  | nil => intro v h; simp [paraScoreGo] at h
  | cons p rest ih =>
    intro v h
    simp only [paraScoreGo] at h
    split at h
    · split at h
      · split at h
        · cases h
          assumption
        · exact ih v h
      · exact ih v h
    · exact ih v h

theorem extractAxisFallbacks_bounds (text : List Char) (axis kw : String)
    (v : Nat) (h : extractAxisFallbacks text axis kw = some v) :
    1 ≤ v ∧ v ≤ 5 := by
  simp only [extractAxisFallbacks] at h
  split at h
  · cases h
    exact firstPatScore_bounds text _ _ (by assumption)
  · split at h
    · cases h
      exact firstPatScore_bounds text _ _ (by assumption)
    · exact paraScoreGo_bounds _ _ _ h

theorem extractAxisScore_bounds (text : List Char) (axis kw : String)
    (v : Nat) (h : extractAxisScore text axis kw = some v) :
    1 ≤ v ∧ v ≤ 5 := by
  simp only [extractAxisScore] at h
  split at h
  · split at h
    · cases h
      assumption
    · exact extractAxisFallbacks_bounds text axis kw v h
  · exact extractAxisFallbacks_bounds text axis kw v h

/-- C4: for every response text and every axis-to-keyword mapping,
`extract_multi_axis_scores` returns exactly one `AxisScore` per axis, in
the mapping's order, and every score is `none` or an integer in `[1,5]`. -/
theorem extract_multi_axis_scores_one_per_axis_in_bounds (text : String)
    (axis_keywords : List (String × String)) :
    (extract_multi_axis_scores text axis_keywords).length = axis_keywords.length
    ∧ (extract_multi_axis_scores text axis_keywords).map (fun a => a.name) =
        axis_keywords.map (fun nk => nk.1)
    ∧ ∀ a ∈ extract_multi_axis_scores text axis_keywords,
        a.score = none ∨ ∃ v, a.score = some v ∧ 1 ≤ v ∧ v ≤ 5 := by
  refine ⟨by simp [extract_multi_axis_scores], by simp [extract_multi_axis_scores], ?_⟩
  intro a ha
  simp only [extract_multi_axis_scores, List.mem_map] at ha
  obtain ⟨nk, -, rfl⟩ := ha
  cases hv : extractAxisScore text.toList nk.1 nk.2 with
  | none => exact Or.inl rfl
  | some v => exact Or.inr ⟨v, rfl, extractAxisScore_bounds _ _ _ _ hv⟩

/-! ## C7 — single-axis versus multi-axis extraction -/

/-- Counterexample to C7: on the text `"Promise: 4"` with the (single)
ranking keyword `PROMISE_RATING`, `extract_score` returns `none`, yet the
multi-axis machinery on the one-entry mapping
`{"Promise": "PROMISE_RATING"}` falls back to the axis-name patterns and
returns 4 — so the single-axis extractor does NOT apply the same cascade. -/
theorem extract_score_cascade_counterexample :
    extract_score "Promise: 4" "PROMISE_RATING" = none
    ∧ extract_multi_axis_scores "Promise: 4" [("Promise", "PROMISE_RATING")] =
        [⟨"Promise", some 4⟩]
    ∧ (extract_multi_axis_scores "Promise: 4"
          [("Promise", "PROMISE_RATING")]).map (fun a => a.score) ≠
        [extract_score "Promise: 4" "PROMISE_RATING"] :=
  ⟨rfl, rfl, by decide⟩

/-- C7 amended: `extract_score` applies only the first (exact
ranking-keyword) pattern of the cascade.  Whenever it finds a score, the
multi-axis machinery on a one-entry mapping with that keyword returns
exactly that score; when it fails, the multi-axis machinery goes on to the
fallback patterns and may still return a score. -/
theorem extract_score_refines_first_stage (text kw name : String) (s : Nat)
    (h : extract_score text kw = some s) :
    extract_multi_axis_scores text [(name, kw)] = [⟨name, some s⟩] := by
  simp only [extract_score] at h
  simp only [extract_multi_axis_scores, List.map_cons, List.map_nil,
    extractAxisScore]
  split at h
  · split at h
    · cases h
      simp_all
    · exact absurd h (by simp)
  · exact absurd h (by simp)

/-- Witness for the amended C7 at the text `"K = 3"`. -/
theorem extract_score_refines_first_stage_witness :
    extract_score "K = 3" "K" = some 3
    ∧ extract_multi_axis_scores "K = 3" [("Promise", "K")] =
        [⟨"Promise", some 3⟩] :=
  ⟨rfl, extract_score_refines_first_stage "K = 3" "K" "Promise" 3 rfl⟩

/-! ## C2 — `call_tool` after exhausted retries -/

/-- C2 (code bug): with `max_retries = 3` and every attempt failing with
HTTP 500, `call_tool` does not return an error-flagged `MCPToolResponse` —
the `MCPToolResponse(success=False, error=..., result=None)` it builds has
no `content` and so raises a pydantic `ValidationError` (the `.error`
here), contradicting both the spec and the code's own intent. -/
theorem call_tool_exhausted_retries_raises :
    call_tool (fun _ => none) 3 (fun _ => .httpError 500) "get_person_profile" =
      .error "validation error for MCPToolResponse: content: field required"
    ∧ ∀ r : MCPToolResponse,
        call_tool (fun _ => none) 3 (fun _ => .httpError 500)
          "get_person_profile" ≠ .ok r :=
  ⟨rfl, fun _ h => Except.noConfusion h⟩

/-! ## C3 — the calculator's success path -/

/-- Models Python's `ast.parse(expression, mode='eval')` on the one
expression scenario 1 of the spec uses (`"2 + 2"` parses to
`BinOp(Add, Constant(2), Constant(2))`). -/
def parse_two_plus_two : String → Except String Calc.PyExpr := fun s =>
  if s = "2 + 2" then
    .ok (.binOp .add (.const (.cint 2)) (.const (.cint 2)))
  else .error "unexpected input"

/-- C3 (code bug): evaluating `"2 + 2"` does produce the integer 4, but
`CalculatorPlugin.execute` then builds its success response as
`PluginResponse(plugin_name=..., success=True, data=..., metadata=...)`,
which lacks the required `request_id`/`status` fields; pydantic raises, the
broad `except` catches, and the caller receives an error-status response
instead of `{status: "success", data: {expression, result: 4, type: "int"}}`. -/
theorem calculator_execute_two_plus_two_error_status :
    Calc.evaluate parse_two_plus_two "2 + 2" = .ok (.vint 4)
    ∧ calculator_execute parse_two_plus_two
        ⟨"req-1", "calculate", [("expression", "2 + 2")]⟩ =
      ⟨"req-1", "error", none,
       some "validation error for PluginResponse: request_id, status: field required",
       []⟩ :=
  ⟨rfl, rfl⟩

/-! ## C5 — multi-step dependency validation is interleaved with execution -/

/-- A two-step plan whose second step depends on itself. -/
def plan_bad_dep : MultiStepPlan :=
  ⟨[⟨"echo", [], none⟩, ⟨"calculator", [], some [1]⟩]⟩

/-- Counterexample to C5: on `plan_bad_dep` (step 1 depends on step 1),
`execute_multi_step` raises the routing error only AFTER invoking the
plugin for step 0 — the invocation trace is non-empty, so the plan is not
rejected before any step executes. -/
theorem execute_multi_step_executes_before_reject :
    execute_multi_step (R := Nat) (fun i _ => i) plan_bad_dep =
      ([(0, "echo")],
       .error ⟨"Step 1", "Invalid dependency: step 1 depends on unexecuted step 1"⟩)
    ∧ (execute_multi_step (R := Nat) (fun i _ => i) plan_bad_dep).1 ≠ [] :=
  ⟨rfl, by decide⟩

/-- Validation of one step's `depends_on` list at position `i`
(`true` when every declared dependency is a strictly earlier index). -/
def depsAllEarlier (step : PlanStep) (i : Nat) : Bool :=
  match step.depends_on with
  | some deps => deps.all (fun d => d < (i : Int))
  | none => true

theorem findBadDep_none_of_all (i : Nat) (deps : List Int)
    (h : deps.all (fun d => d < (i : Int)) = true) :
    findBadDep i deps = none := by
  induction deps with
  | nil => rfl
  | cons d ds ih =>
    simp only [List.all_cons, Bool.and_eq_true, decide_eq_true_eq] at h
    simp only [findBadDep, if_neg (by omega : ¬ ((i : Int) ≤ d))]
    exact ih (by simpa using h.2)

theorem findBadDep_some_of_not_all (i : Nat) (deps : List Int)
    (h : deps.all (fun d => d < (i : Int)) = false) :
    ∃ d, findBadDep i deps = some d := by
  induction deps with
  | nil => simp [List.all_nil] at h
  | cons d ds ih =>
    by_cases hd : (i : Int) ≤ d
    · exact ⟨d, by simp [findBadDep, hd]⟩
    · simp only [findBadDep, if_neg hd]
      apply ih
      simp only [List.all_cons, decide_eq_true_eq] at h ⊢
      rcases Bool.and_eq_false_iff.mp h with h1 | h2
      · exact absurd (by omega : d < (i : Int)) (by simpa using h1)
      · exact h2

theorem executeSteps_first_bad {R : Type} (execP : Nat → PlanStep → R) :
    ∀ (pre : List PlanStep) (b : Nat) (tr : List (Nat × String)) (rs : List R)
      (bad : PlanStep) (post : List PlanStep),
      (∀ k (hk : k < pre.length), depsAllEarlier (pre.get ⟨k, hk⟩) (b + k) = true) →
      depsAllEarlier bad (b + pre.length) = false →
      (executeSteps execP b (pre ++ bad :: post) tr rs).1 =
          tr.reverse ++ (pre.enumFrom b).map (fun p => (p.1, p.2.plugin_name))
      ∧ ∃ e, (executeSteps execP b (pre ++ bad :: post) tr rs).2 = .error e := by
  intro pre
  induction pre with
  | nil =>
    intro b tr rs bad post _ hbad
    simp only [List.length_nil, Nat.add_zero] at hbad
    simp only [List.nil_append, executeSteps]
    rcases hdep : bad.depends_on with _ | deps
    · simp [depsAllEarlier, hdep] at hbad
    · simp only [depsAllEarlier, hdep] at hbad
      obtain ⟨d, hd⟩ := findBadDep_some_of_not_all b deps hbad
      simp only [hd]
      simp
  | cons p pre' ih =>
    intro b tr rs bad post hpre hbad
    have hp0 : depsAllEarlier p b = true := by
      have := hpre 0 (by simp)
      simpa using this
    simp only [List.cons_append, executeSteps]
    have hnone :
        (match p.depends_on with
         | some deps => findBadDep b deps
         | none => none) = none := by
      rcases hdep : p.depends_on with _ | deps
      · simp [hdep]
      · simp only [depsAllEarlier, hdep] at hp0
        simp only [hdep]
        exact findBadDep_none_of_all b deps hp0
    simp only [hnone]
    have ihres := ih (b + 1) ((b, p.plugin_name) :: tr) (execP b p :: rs)
      bad post
      (by
        intro k hk
        have := hpre (k + 1) (by simpa using Nat.succ_lt_succ hk)
        simpa [Nat.add_comm, Nat.add_assoc, Nat.add_left_comm] using this)
      (by
        have : b + 1 + pre'.length = b + (pre'.length + 1) := by omega
        rw [this]
        simpa using hbad)
    simp only [List.append_eq]
    refine ⟨?_, ihres.2⟩
    rw [ihres.1]
    simp [List.enumFrom, List.reverse_cons, List.append_assoc]

/-- C5 amended: a plan whose first offending step is at position `i`
(dependency on an index `≥ i`) is rejected with a routing error when step
`i` is reached — the strictly earlier steps have already been executed (the
trace lists exactly them, in order); only for `i = 0` does the plan fail
before any plugin is invoked. -/
theorem execute_multi_step_rejects_at_first_bad_step {R : Type}
    (execP : Nat → PlanStep → R) (pre : List PlanStep) (bad : PlanStep)
    (post : List PlanStep)
    (hpre : ∀ k (hk : k < pre.length), depsAllEarlier (pre.get ⟨k, hk⟩) k = true)
    (hbad : depsAllEarlier bad pre.length = false) :
    (execute_multi_step execP ⟨pre ++ bad :: post⟩).1 =
        pre.enum.map (fun p => (p.1, p.2.plugin_name))
    ∧ ∃ e, (execute_multi_step execP ⟨pre ++ bad :: post⟩).2 = .error e := by
  have h := executeSteps_first_bad execP pre 0 [] [] bad post
    (by intro k hk; simpa using hpre k hk) (by simpa using hbad)
  simpa [execute_multi_step, List.enum] using h

/-- Witness for the amended C5 on the concrete two-step plan: step 0 runs,
then the error is raised. -/
theorem execute_multi_step_rejects_witness :
    (execute_multi_step (R := Nat) (fun i _ => i)
        ⟨[⟨"echo", [], none⟩] ++ ⟨"calculator", [], some [1]⟩ :: []⟩).1 =
      ([(⟨"echo", [], none⟩ : PlanStep)].enum).map (fun p => (p.1, p.2.plugin_name))
    ∧ ∃ e, (execute_multi_step (R := Nat) (fun i _ => i)
        ⟨[⟨"echo", [], none⟩] ++ ⟨"calculator", [], some [1]⟩ :: []⟩).2 =
        .error e :=
  execute_multi_step_rejects_at_first_bad_step (fun i _ => i)
    [⟨"echo", [], none⟩] ⟨"calculator", [], some [1]⟩ []
    (by decide) (by decide)

/-! ## C6 — `initialize_session` is not idempotent -/

/-- A well-formed SSE body carrying a JSON-RPC `result`. -/
def okBody : String := "event: message\ndata: RES\n\n"

/-- A decoder giving the `initialize` result object to the body above. -/
def decRes : String → Option Json := fun s =>
  if s = "RES" then some (Json.obj [("result", Json.obj [])]) else none

/-- Counterexample to C6: after one successful `initialize_session` (which
stores session id `sess-A`), calling it again against a server that now
hands out `sess-B` re-sends the whole handshake (the request trace is
`[initialize, initialized-notification]` again, not empty) and overwrites
the session id — the session state does NOT stay unchanged. -/
theorem init_session_not_idempotent :
    init_session decRes ⟨200, some "sess-A", okBody⟩ ⟨202, none, ""⟩
        ⟨none, false⟩ =
      (⟨some "sess-A", true⟩, .ok (), [.initReq, .notifReq (some "sess-A")])
    ∧ init_session decRes ⟨200, some "sess-B", okBody⟩ ⟨202, none, ""⟩
        ⟨some "sess-A", true⟩ =
      (⟨some "sess-B", true⟩, .ok (), [.initReq, .notifReq (some "sess-B")])
    ∧ (MCPClientState.mk (some "sess-B") true ≠ ⟨some "sess-A", true⟩) :=
  ⟨rfl, rfl, by decide⟩

/-- C6 amended: `initialize_session` has no guard on the initialized flag:
EVERY call — also one following a successful call — re-sends the
`initialize` request and the `initialized` notification; a successful call
leaves the flag true and sets the session id to the new response's
`mcp-session-id` header, keeping the previous id only when the header is
absent.  (Idempotence holds only at call sites that guard on
`self.initialized`, as `call_tool` does.) -/
theorem init_session_rehandshakes (dec : String → Option Json)
    (st : MCPClientState) (initResp notifResp : HttpResp)
    (h200 : initResp.status = 200)
    (hok : (SSEParser.parse_mcp_result dec initResp.body).1 = true)
    (hnotif : notifResp.status = 200 ∨ notifResp.status = 202) :
    init_session dec initResp notifResp st =
      (⟨orElseO initResp.sessionHeader st.session_id, true⟩, .ok (),
       [.initReq, .notifReq (orElseO initResp.sessionHeader st.session_id)]) := by
  rcases hparse : SSEParser.parse_mcp_result dec initResp.body with ⟨s, r, m⟩
  rw [hparse] at hok
  simp only at hok
  subst hok
  simp only [init_session, send_initialize_request, if_pos h200, hparse,
    send_initialized_notification, if_pos hnotif]
  cases hh : initResp.sessionHeader <;> simp [hh, orElseO]

/-- Witness for the amended C6: the concrete second call of the
counterexample scenario, derived from the general theorem. -/
theorem init_session_rehandshakes_witness :
    init_session decRes ⟨200, some "sess-B", okBody⟩ ⟨202, none, ""⟩
        ⟨some "sess-A", true⟩ =
      (⟨orElseO (some "sess-B") (some "sess-A"), true⟩, .ok (),
       [.initReq, .notifReq (orElseO (some "sess-B") (some "sess-A"))]) :=
  init_session_rehandshakes decRes ⟨some "sess-A", true⟩
    ⟨200, some "sess-B", okBody⟩ ⟨202, none, ""⟩ rfl rfl (Or.inr rfl)

/-! ## C8 — calculator validation does not reach call arguments -/

mutual

/-- The allowed-tree predicate in the claim's sense: EVERY node of the
syntax tree (call arguments included) must be a numeric constant, unary
plus/minus, one of the seven safe binary operators, the named constants
`pi`/`e`, or a call to one of the nine whitelisted functions. -/
def claimAllowed : Calc.PyExpr → Bool
  | .const c => Calc.isNumericConst c
  | .name id => Calc.allowedNames.contains id
  | .binOp op l r => Calc.safeBin op && (claimAllowed l && claimAllowed r)
  | .unaryOp op e => Calc.safeUnary op && claimAllowed e
  | .call (.name id) args =>
    Calc.allowedFunctions.contains id && claimAllowedList args
  | .call _ _ => false
  | .other _ => false

/-- The predicate above on argument lists. -/
def claimAllowedList : List Calc.PyExpr → Bool
  | [] => true
  | e :: es => claimAllowed e && claimAllowedList es

end

/-- Models Python's `ast.parse(expression, mode='eval')` on the expression
`"round(1, None)"`. -/
def parse_round_one_none : String → Except String Calc.PyExpr := fun s =>
  if s = "round(1, None)" then
    .ok (.call (.name "round") [.const (.cint 1), .const .cnone])
  else .error "unexpected input"

/-- Counterexample to C8: the tree of `round(1, None)` contains the
non-numeric constant `None` — a node outside the claim's allowed set — yet
the calculator raises no expression-validation error: the validator never
descends into call arguments, evaluation succeeds with the value 1, and
the only error in the plugin response is the unrelated pydantic
construction failure of the success path. -/
theorem calculator_validation_skips_call_args :
    claimAllowed (.call (.name "round") [.const (.cint 1), .const .cnone]) = false
    ∧ Calc.evaluate parse_round_one_none "round(1, None)" = .ok (.vint 1)
    ∧ calculator_execute parse_round_one_none
        ⟨"req-2", "calculate", [("expression", "round(1, None)")]⟩ =
      ⟨"req-2", "error", none,
       some "validation error for PluginResponse: request_id, status: field required",
       []⟩ :=
  ⟨rfl, rfl, rfl⟩

/-- The trees `_validate_node` actually walks: like `claimAllowed`, except
that a call's arguments are NOT inspected (only the callee is). -/
def validatorAllowed : Calc.PyExpr → Bool
  | .const c => Calc.isNumericConst c
  | .name id => Calc.allowedNames.contains id
  | .binOp op l r => Calc.safeBin op && (validatorAllowed l && validatorAllowed r)
  | .unaryOp op e => Calc.safeUnary op && validatorAllowed e
  | .call (.name id) _ => Calc.allowedFunctions.contains id
  | .call _ _ => false
  | .other _ => false

theorem validate_node_ok_iff :
    ∀ e : Calc.PyExpr, Calc.validate_node e = .ok () ↔ validatorAllowed e = true
  | .const c => by
    cases hn : Calc.isNumericConst c <;>
      simp [Calc.validate_node, validatorAllowed, hn]
  | .name id => by
    cases hn : Calc.allowedNames.contains id <;>
      simp [Calc.validate_node, validatorAllowed, hn]
  | .binOp op l r => by
    cases hs : Calc.safeBin op
    · simp [Calc.validate_node, validatorAllowed, hs]
    · simp only [Calc.validate_node, validatorAllowed, hs, if_true, Bool.true_and]
      cases hvl : Calc.validate_node l with
      | error m =>
        have : ¬ validatorAllowed l = true := by
          rw [← validate_node_ok_iff l, hvl]; simp
        simp [this]
      | ok u =>
        cases u
        have hl : validatorAllowed l = true := (validate_node_ok_iff l).mp hvl
        simp [hl, validate_node_ok_iff r]
  | .unaryOp op e => by
    cases hs : Calc.safeUnary op
    · simp [Calc.validate_node, validatorAllowed, hs]
    · simp only [Calc.validate_node, validatorAllowed, hs, if_true, Bool.true_and]
      exact validate_node_ok_iff e
  | .call f args => by
    cases f <;> simp [Calc.validate_node, validatorAllowed]
  | .other kind => by simp [Calc.validate_node, validatorAllowed]

/-- C8 amended: the validator walk recurses through unary and binary
operands but not through call arguments; for every tree containing a
disallowed node at a position the walk reaches, `evaluate` raises an
expression-validation error before evaluating anything, and the plugin
surfaces it as an error-status response carrying that message.  (A
disallowed node hidden inside an allowed call's arguments is not rejected
by validation — see the counterexample.) -/
theorem calculator_rejects_validator_reachable (e : Calc.PyExpr)
    (h : validatorAllowed e = false) :
    ∃ m, Calc.validate_node e = .error m
      ∧ Calc.evaluate_tree e = .error m
      ∧ ∀ (parse : String → Except String Calc.PyExpr) (req : PluginRequest)
          (s : String),
          req.parameters.lookup "expression" = some s → s ≠ "" →
          parse s = .ok e →
          calculator_execute parse req =
            ⟨req.request_id, "error", none, some m, []⟩ := by
  have hne : Calc.validate_node e ≠ .ok () := by
    intro hok
    rw [(validate_node_ok_iff e).mp hok] at h
    cases h
  cases hv : Calc.validate_node e with
  | ok u => cases u; exact absurd hv hne
  | error m =>
    refine ⟨m, rfl, ?_, ?_⟩
    · simp [Calc.evaluate_tree, hv]
    · intro parse req s hs hs0 hp
      simp [calculator_execute, hs, hs0, Calc.evaluate, hp,
        Calc.evaluate_tree, hv, mkPluginResponse]

/-- Witness for the amended C8 at the disallowed name `x`. -/
theorem calculator_rejects_validator_reachable_witness :
    validatorAllowed (.name "x") = false
    ∧ ∃ m, Calc.validate_node (.name "x") = .error m
        ∧ Calc.evaluate_tree (.name "x") = .error m
        ∧ ∀ (parse : String → Except String Calc.PyExpr) (req : PluginRequest)
            (s : String),
            req.parameters.lookup "expression" = some s → s ≠ "" →
            parse s = .ok (.name "x") →
            calculator_execute parse req =
              ⟨req.request_id, "error", none, some m, []⟩ :=
  ⟨rfl, calculator_rejects_validator_reachable (.name "x") rfl⟩

/-! ## C9 — enrichment failures do not fail the evaluation -/

theorem isEmpty_false_of_mem {α : Type} (y : α) (xs : List α) (h : y ∈ xs) :
    xs.isEmpty = false := by
  cases xs
  · cases h
  · rfl

theorem joinNl_mem_decomp (y : String) :
    ∀ xs : List String, y ∈ xs → ∃ a b, Py.joinNl xs = a ++ y ++ b := by
  intro xs
  induction xs with
  | nil => intro h; cases h
  | cons x rest ih =>
    intro h
    rcases List.mem_cons.mp h with rfl | hmem
    · cases rest with
      | nil =>
        exact ⟨"", "", by
          simp [Py.joinNl, String.empty_append, String.append_empty]⟩
      | cons z zs =>
        refine ⟨"", "\n" ++ Py.joinNl (z :: zs), ?_⟩
        simp [Py.joinNl, String.empty_append, String.append_assoc]
    · cases rest with
      | nil => cases hmem
      | cons z zs =>
        obtain ⟨a, b, hab⟩ := ih hmem
        refine ⟨x ++ "\n" ++ a, b, ?_⟩
        simp [Py.joinNl, hab, String.append_assoc]

/-- Decomposition of the built response text around the failure line in
the enrichment log (helper for C9): the log block is present and the
failure line occurs inside it. -/
theorem result_decomp (cA c d fail : String) (log : List String)
    (hmem : fail ∈ log) :
    ∃ pre post pre2 post2 : String,
      (cA ++
        (if log.isEmpty then ""
         else "\n\n[ENRICHMENT LOG]\n" ++ Py.joinNl log ++
           "\n[END ENRICHMENT LOG]") ++ c ++ d)
        = pre ++ fail ++ post
      ∧ (cA ++
        (if log.isEmpty then ""
         else "\n\n[ENRICHMENT LOG]\n" ++ Py.joinNl log ++
           "\n[END ENRICHMENT LOG]") ++ c ++ d)
        = pre2 ++ "[ENRICHMENT LOG]" ++ post2 := by
  rw [isEmpty_false_of_mem fail log hmem]
  obtain ⟨a, b, hab⟩ := joinNl_mem_decomp fail log hmem
  refine ⟨cA ++ "\n\n[ENRICHMENT LOG]\n" ++ a,
    b ++ "\n[END ENRICHMENT LOG]" ++ c ++ d,
    cA ++ "\n\n",
    "\n" ++ Py.joinNl log ++ "\n[END ENRICHMENT LOG]" ++ c ++ d, ?_, ?_⟩
  · rw [if_neg (by simp)]
    rw [hab]
    simp [String.append_assoc]
  · rw [if_neg (by simp)]
    simp only [String.append_assoc]
    rfl

/-- C9: when enrichment is enabled and the enrichment phase raises, the
evaluation still returns a response (no exception escapes): the failure is
recorded as a `Plugin enrichment failed:` line in the enrichment log, and
the returned response text carries the `[ENRICHMENT LOG]` block containing
that line. -/
theorem evaluate_applicant_enrichment_isolated {E : Type}
    (request : EvaluationRequest) (u : String) (varsE : EnrichVars E)
    (msg : String)
    (tryBlock : List String → Except (EnrichVars E × String) (EnrichVars E))
    (formatE : E → String) (kwSingle : String)
    (kwMulti : List (String × String))
    (generate : String → Except String String) (t : String)
    (hup : request.use_plugin = true) (hsrc : request.source_url = some u)
    (hu : u ≠ "")
    (htry : tryBlock ["Enrichment requested for URL: " ++ u] =
      .error (varsE, msg))
    (hgen : ∀ s, generate s = .ok t) :
    ∃ (r : EvaluationResponse) (pre post pre2 post2 : String),
      evaluate_applicant request tryBlock formatE kwSingle kwMulti generate =
        .ok r
      ∧ r.provider = request.provider ∧ r.model = request.model
      ∧ r.result = pre ++ ("Plugin enrichment failed: " ++ msg) ++ post
      ∧ r.result = pre2 ++ "[ENRICHMENT LOG]" ++ post2 := by
  have hvars : runEnrichment request.use_plugin request.source_url tryBlock =
      { varsE with enrichment_log :=
          varsE.enrichment_log ++ ["Plugin enrichment failed: " ++ msg] } := by
    simp only [runEnrichment, hsrc, hup]
    rw [if_pos (by simp [hu])]
    rw [htry]
  simp only [evaluate_applicant, hvars, hgen]
  cases hed : varsE.enrichment_data with
  | none =>
    simp only
    obtain ⟨pre, post, pre2, post2, h1, h2⟩ := result_decomp _ _ _
      ("Plugin enrichment failed: " ++ msg)
      (varsE.enrichment_log ++ ["Plugin enrichment failed: " ++ msg])
      (by simp)
    exact ⟨_, pre, post, pre2, post2, rfl, rfl, rfl, h1, h2⟩
  | some d =>
    simp only
    by_cases hf : formatE d ≠ ""
    · rw [if_pos hf]
      simp only
      obtain ⟨pre, post, pre2, post2, h1, h2⟩ := result_decomp _ _ _
        ("Plugin enrichment failed: " ++ msg)
        ((varsE.enrichment_log ++ ["Plugin enrichment failed: " ++ msg]) ++
          ["Formatted enrichment data for prompt"] ++
          ["Added enrichment data to applicant data"])
        (by simp)
      exact ⟨_, pre, post, pre2, post2, rfl, rfl, rfl, h1, h2⟩
    · rw [if_neg hf]
      simp only
      obtain ⟨pre, post, pre2, post2, h1, h2⟩ := result_decomp _ _ _
        ("Plugin enrichment failed: " ++ msg)
        ((varsE.enrichment_log ++ ["Plugin enrichment failed: " ++ msg]) ++
          ["Formatted enrichment data for prompt"])
        (by simp)
      exact ⟨_, pre, post, pre2, post2, rfl, rfl, rfl, h1, h2⟩

/-- Witness for C9 at a concrete failing enrichment phase. -/
theorem evaluate_applicant_enrichment_isolated_witness :
    ∃ (r : EvaluationResponse) (pre post pre2 post2 : String),
      evaluate_applicant (E := Unit)
          ⟨"anthropic", "m", "A", false, true, some "https://linkedin.com/in/x"⟩
          (fun log0 => .error (⟨none, log0, none, none⟩, "boom"))
          (fun _ => "") "K" [] (fun _ => .ok "K = 3") =
        .ok r
      ∧ r.provider = "anthropic" ∧ r.model = "m"
      ∧ r.result = pre ++ ("Plugin enrichment failed: " ++ "boom") ++ post
      ∧ r.result = pre2 ++ "[ENRICHMENT LOG]" ++ post2 :=
  evaluate_applicant_enrichment_isolated
    ⟨"anthropic", "m", "A", false, true, some "https://linkedin.com/in/x"⟩
    "https://linkedin.com/in/x"
    ⟨none, ["Enrichment requested for URL: " ++ "https://linkedin.com/in/x"],
     none, none⟩
    "boom"
    (fun log0 => .error (⟨none, log0, none, none⟩, "boom"))
    (fun _ => "") "K" [] (fun _ => .ok "K = 3") "K = 3"
    rfl rfl (by decide) rfl (fun _ => rfl)

end AIEval
